import Mathlib

/-!
# Verification of the investment-summary portfolio loader and scoring engine

A shallow embedding, in Lean 4, of the core logic of the repository:

* `src/load_portfolio.py` — numeric cell parsing (`parse_float`, `parse_int`),
  the option-symbol parser (`parse_option_symbol`), and the two portfolio
  loaders (`load_portfolio`, `load_full_portfolio`);
* `src/daily_market_summary.py` — the scoring engine
  (`calculate_time_urgency_score`, `calculate_action_recommendations`) and the
  recommendation categorizer.

Modelling conventions:

* Python floats are modelled as exact rationals (`ℚ`); `round(x, 2)` and the
  `%.1f` format are modelled as exact decimal rounding (half-to-even, as in
  CPython's `round`).
* Python exceptions that can escape a function are modelled with
  `Except Unit`; exceptions that the source catches locally are folded into
  `Option` results inside the definition.
* Strings are ASCII for the purposes of the character classes used by the
  option regular expression (`[A-Z]` under `re.IGNORECASE`, `[A-Za-z]`, `\d`,
  `\s`); CSV cells of a brokerage export are ASCII.
* A CSV row (`csv.DictReader` record) is a record of the eight column strings;
  a missing column and an empty cell behave identically in every code path
  modelled here, so both are represented by `""` (except `Quantity`, whose
  `row.get("Quantity", "0")` default is written out explicitly where it
  matters — the outcome is again the same).
* `date.today()` is a parameter `today : YMD` of every definition that the
  source makes depend on it.
-/

/-! ## Python primitive helpers -/

/-- `s.replace(c, "")` for a set of single characters: removing each of the
characters of `bad` (in any order) from a string is the same as filtering
them out. Used for `value.replace(",", "").replace("$", "").replace("%", "")`. -/
def pyRemoveChars (bad : List Char) (s : String) : String :=
  ⟨s.data.filter (fun c => !bad.contains c)⟩

/-- Substring containment, Python's `sub in s` for strings. -/
def pyContains (s sub : String) : Bool :=
  decide (sub.data <:+: s.data)

/-- ASCII whitespace, Python's `\s` and the characters removed by
`str.strip()`. -/
def isSpaceChar (c : Char) : Bool :=
  c = ' ' || c = '\t' || c = '\n' || c = '\r' || c = '\x0b' || c = '\x0c'

/-- Python `str.strip()`: drop whitespace from both ends.  (Defined on the
character list so that concrete evaluations reduce definitionally.) -/
def pyStrip (s : String) : String :=
  ⟨((s.data.dropWhile isSpaceChar).reverse.dropWhile isSpaceChar).reverse⟩

/-- Python `str.upper()` on ASCII strings. -/
def pyUpper (s : String) : String := ⟨s.data.map Char.toUpper⟩

/-- Python `str.lower()` on ASCII strings. -/
def pyLower (s : String) : String := ⟨s.data.map Char.toLower⟩

/-- Python `int()` truncation toward zero applied to a real value: on a
reduced rational, dividing the numerator by the denominator with `Int.tdiv`
(truncating division) is exactly truncation. -/
def pyTrunc (q : ℚ) : ℤ :=
  Int.tdiv q.num q.den

/-- Decimal value of a list of ASCII digits. -/
def digitsVal (l : List Char) : ℕ :=
  l.foldl (fun n c => 10 * n + (c.toNat - '0'.toNat)) 0

/-- Python's `float(s)` builtin, modelled on the plain decimal-literal subset
actually reachable from this repository's inputs: optional surrounding
whitespace, an optional sign, then digits with at most one decimal point and
at least one digit (`"195"`, `"1.5"`, `".5"`, `"5."`).  Exponents,
underscores, `inf` and `nan` are not modelled; every string outside the
subset (for example `"1.2.3"`, `"$5"`, `"abc"`, `""`, `"."`) yields `none`,
which stands for the `ValueError` raised by CPython. -/
def pyFloat? (s : String) : Option ℚ :=
  let cs := (pyStrip s).data
  let (neg, body) : Bool × List Char :=
    match cs with
    | '+' :: t => (false, t)
    | '-' :: t => (true, t)
    | _ => (false, cs)
  if body.all (fun c => c.isDigit || c == '.') then
    let intPart := body.takeWhile (fun c => c ≠ '.')
    match body.dropWhile (fun c => c ≠ '.') with
    | [] =>
        if intPart.isEmpty then none
        else
          let n : ℤ := digitsVal intPart
          some (mkRat (if neg then -n else n) 1)
    | _ :: fracPart =>
        if fracPart.any (fun c => c = '.') then none
        else if intPart.isEmpty ∧ fracPart.isEmpty then none
        else
          let n : ℤ := digitsVal (intPart ++ fracPart)
          some (mkRat (if neg then -n else n) (10 ^ fracPart.length))
  else none

/-- CPython's `round` to an integer: round-half-to-even (banker's rounding).
Away from exact halves it agrees with rounding to the nearest integer. -/
def roundHalfEven (q : ℚ) : ℤ :=
  if Int.fract q = 1 / 2 then
    (if ⌊q⌋ % 2 = 0 then ⌊q⌋ else ⌊q⌋ + 1)
  else round q

/-- Python `round(x, 2)`, modelled as exact decimal rounding of the rational
value to two fractional digits. -/
def pyRound2 (q : ℚ) : ℚ :=
  (roundHalfEven (q * 100) : ℚ) / 100

/-- Python `format(x, '.1f')` (used by the f-strings building recommended
actions): fixed-point with one fractional digit.  The sign of a negative
value rounding to zero is not modelled; no claim depends on the rendered
digits. -/
def pyFormat1 (q : ℚ) : String :=
  let n := roundHalfEven (q * 10)
  (if n < 0 then "-" else "") ++ toString (n.natAbs / 10) ++ "." ++ toString (n.natAbs % 10)

/-! ## Numeric cell parsing (`src/load_portfolio.py`, `parse_float` / `parse_int`) -/

/-- `parse_float(value, default=0.0)`:
strip `,`, `$` and `%`, convert with `float`, and return the default on an
empty/missing cell or any conversion failure (the `try/except` in the
source). -/
def parse_float (value : String) (default : ℚ := 0) : ℚ :=
  if value = "" then default
  else
    match pyFloat? (pyRemoveChars [',', '$', '%'] value) with
    | some q => q
    | none => default

/-- `parse_int(value, default=0)`:
strip `,` only, convert with `int(float(·))`, and return the default on an
empty/missing cell or any conversion failure. -/
def parse_int (value : String) (default : ℤ := 0) : ℤ :=
  if value = "" then default
  else
    match pyFloat? (pyRemoveChars [','] value) with
    | some q => pyTrunc q
    | none => default

/-! ## Calendar dates -/

/-- A Gregorian calendar date, as produced by Python's `datetime.date`. -/
structure YMD where
  year : ℕ
  month : ℕ
  day : ℕ
deriving DecidableEq, Repr

/-- Gregorian leap year. -/
def isLeapYear (y : ℕ) : Bool :=
  (y % 4 == 0 && y % 100 != 0) || y % 400 == 0

/-- Number of days in month `m` (1-based) of year `y`. -/
def daysInMonth (y m : ℕ) : ℕ :=
  [31, if isLeapYear y then 29 else 28, 31, 30, 31, 30, 31, 31, 30, 31, 30, 31].getD (m - 1) 0

/-- The validity check performed by Python's `date(year, month, day)`
constructor (which raises `ValueError` otherwise), restricted to
`1 ≤ month ≤ 12` which is guaranteed by the month map. -/
def validYMD (d : YMD) : Bool :=
  1 ≤ d.year && d.year ≤ 9999 && 1 ≤ d.month && d.month ≤ 12 &&
    1 ≤ d.day && d.day ≤ daysInMonth d.year d.month

/-- Days before month `m` in year `y`. -/
def daysBeforeMonth (y m : ℕ) : ℕ :=
  (List.range (m - 1)).foldl (fun a i => a + daysInMonth y (i + 1)) 0

/-- `date.toordinal()`: the proleptic-Gregorian ordinal of a date, so that
subtracting two ordinals gives `(d2 - d1).days`. -/
def toOrdinal (d : YMD) : ℤ :=
  365 * ((d.year : ℤ) - 1) + ((d.year - 1) / 4 : ℕ) - ((d.year - 1) / 100 : ℕ)
    + ((d.year - 1) / 400 : ℕ) + daysBeforeMonth d.year d.month + d.day

/-! ## Option-symbol parsing (`parse_option_symbol`) -/

/-- The month-abbreviation map `MONTH_MAP` of the source. -/
def MONTH_MAP : List (String × ℕ) :=
  [("jan", 1), ("feb", 2), ("mar", 3), ("apr", 4), ("may", 5), ("jun", 6),
   ("jul", 7), ("aug", 8), ("sep", 9), ("oct", 10), ("nov", 11), ("dec", 12)]

/-- Result of a successful `OPTIONS_PATTERN` match: the six captured groups. -/
structure OptionMatch where
  underlying : String
  monthStr : String
  dayStr : String
  yearStr : String
  strikeStr : String
  kindStr : String
deriving DecidableEq, Repr

/-- ASCII letter, `[A-Z]` under `re.IGNORECASE` and `[A-Za-z]`. -/
def isLetter (c : Char) : Bool := c.isAlpha

/-- `OPTIONS_PATTERN.match(s)` with the pattern
`^([A-Z]+)\s+([A-Za-z]{3})\s+(\d{1,2})\s+'(\d{2})\s+\$([0-9.]+)\s+(Call|Put)$`
under `re.IGNORECASE`, applied (as in the source) to an already-stripped
string.  Because no two adjacent character classes of the pattern overlap,
the regex engine's greedy matching is deterministic and is embedded as a
sequence of maximal-run token reads; `{n}`/`{1,2}` bounds followed by `\s+`
force the corresponding maximal run to have exactly that length.  On a
stripped string the final `$` is end-of-input. -/
def optionsPatternMatch (s : String) : Option OptionMatch :=
  let cs := s.data
  let und := cs.takeWhile isLetter
  let cs := cs.dropWhile isLetter
  if und.isEmpty then none else
  let ws := cs.takeWhile isSpaceChar
  let cs := cs.dropWhile isSpaceChar
  if ws.isEmpty then none else
  let mon := cs.takeWhile isLetter
  let cs := cs.dropWhile isLetter
  if mon.length ≠ 3 then none else
  let ws := cs.takeWhile isSpaceChar
  let cs := cs.dropWhile isSpaceChar
  if ws.isEmpty then none else
  let day := cs.takeWhile Char.isDigit
  let cs := cs.dropWhile Char.isDigit
  if day.length = 0 ∨ 2 < day.length then none else
  let ws := cs.takeWhile isSpaceChar
  let cs := cs.dropWhile isSpaceChar
  if ws.isEmpty then none else
  match cs with
  | '\'' :: cs =>
    let yr := cs.takeWhile Char.isDigit
    let cs := cs.dropWhile Char.isDigit
    if yr.length ≠ 2 then none else
    let ws := cs.takeWhile isSpaceChar
    let cs := cs.dropWhile isSpaceChar
    if ws.isEmpty then none else
    match cs with
    | '$' :: cs =>
      let stk := cs.takeWhile (fun c => c.isDigit || c = '.')
      let cs := cs.dropWhile (fun c => c.isDigit || c = '.')
      if stk.isEmpty then none else
      let ws := cs.takeWhile isSpaceChar
      let cs := cs.dropWhile isSpaceChar
      if ws.isEmpty then none else
      let tailLower := cs.map Char.toLower
      if tailLower = "call".data ∨ tailLower = "put".data then
        some ⟨⟨und⟩, ⟨mon⟩, ⟨day⟩, ⟨yr⟩, ⟨stk⟩, ⟨cs⟩⟩
      else none
    | _ => none
  | _ => none

/-- The structured result of `parse_option_symbol`. -/
structure OptionInfo where
  underlying_symbol : String
  expiration_date : YMD
  strike_price : ℚ
  option_type : String
  days_to_expiration : ℤ
deriving DecidableEq, Repr

/-- `parse_option_symbol(symbol)`.

Returns `.ok none` when the symbol is not an option (no regex match, unknown
month abbreviation, or an invalid calendar date — the latter caught by the
source's `try/except ValueError` around the `date` constructor), and
`.ok (some info)` on success.  The final `float(strike)` conversion is *not*
inside any `try`: a strike text accepted by `[0-9.]+` but rejected by
`float` (e.g. `"1.2.3"`) raises `ValueError`, modelled as `.error ()`. -/
def parse_option_symbol (today : YMD) (symbol : String) : Except Unit (Option OptionInfo) :=
  match optionsPatternMatch (pyStrip symbol) with
  | none => .ok none
  | some m =>
    match MONTH_MAP.lookup (pyLower m.monthStr) with
    | none => .ok none
    | some month =>
      let year := 2000 + digitsVal m.yearStr.data
      let day := digitsVal m.dayStr.data
      let expiration : YMD := ⟨year, month, day⟩
      if validYMD expiration then
        match pyFloat? m.strikeStr with
        | none => .error ()
        | some strike =>
          .ok (some
            { underlying_symbol := pyUpper m.underlying
              expiration_date := expiration
              strike_price := strike
              option_type := if pyLower m.kindStr = "call" then "Call" else "Put"
              days_to_expiration := toOrdinal expiration - toOrdinal today })
      else .ok none

/-! ## CSV rows and the portfolio loaders -/

/-- One `csv.DictReader` record of the brokerage export: the eight column
strings.  A missing column is represented by `""` (see the header comment). -/
structure Row where
  symbol : String
  quantity : String
  pricePaid : String
  lastPrice : String
  daysGain : String
  totalGain : String
  totalGainPercent : String
  value : String
deriving DecidableEq, Repr

/-- A `Row` with every cell empty; concrete rows are built by updating it. -/
def emptyRow : Row := ⟨"", "", "", "", "", "", "", ""⟩

/-- An option position dictionary as built by `load_full_portfolio`. -/
structure OptionPosition where
  symbol : String
  underlying_symbol : String
  expiration_date : YMD
  strike_price : ℚ
  option_type : String
  days_to_expiration : ℤ
  quantity : ℤ
  is_short : Bool
  position_type : String
  price_paid : ℚ
  current_price : ℚ
  days_gain : ℚ
  total_gain : ℚ
  total_gain_percent : ℚ
  current_value : ℚ
deriving DecidableEq, Repr

/-- The option-position dictionary literal of `load_full_portfolio`. -/
def mkOptionPosition (symbol : String) (info : OptionInfo) (r : Row) : OptionPosition :=
  let quantity := parse_int (if r.quantity = "" then "0" else r.quantity)
  { symbol := symbol
    underlying_symbol := info.underlying_symbol
    expiration_date := info.expiration_date
    strike_price := info.strike_price
    option_type := info.option_type
    days_to_expiration := info.days_to_expiration
    quantity := quantity
    is_short := quantity < 0
    position_type := if quantity < 0 then "short" else "long"
    price_paid := parse_float r.pricePaid
    current_price := parse_float r.lastPrice
    days_gain := parse_float r.daysGain
    total_gain := parse_float r.totalGain
    total_gain_percent := parse_float r.totalGainPercent
    current_value := parse_float r.value }

/-- The reserved symbols `SKIP_SYMBOLS = {"CASH", "TOTAL"}`. -/
def SKIP_SYMBOLS : List String := ["CASH", "TOTAL"]

/-- Python `dict` assignment `d[k] = v`: replace the value at the first (in a
genuine `dict`, only) occurrence of the key in place, otherwise append the
new binding at the end — insertion order is preserved either way. -/
def dictSet : List (String × ℤ) → String → ℤ → List (String × ℤ)
  | [], k, v => [(k, v)]
  | p :: m, k, v => if p.1 = k then (k, v) :: m else p :: dictSet m k v

/-- The result of `load_full_portfolio` on an available file: the
`stocks_portfolio` dict (insertion-ordered) and the `options_portfolio`
list. -/
structure FullPortfolio where
  stocks_portfolio : List (String × ℤ)
  options_portfolio : List OptionPosition
deriving DecidableEq, Repr

/-- The row loop of `load_full_portfolio`, with the accumulated state as
parameters.  An uncaught exception from `parse_option_symbol` aborts the
whole loop (`.error`). -/
def loadFullLoop (today : YMD) (stocks : List (String × ℤ))
    (options : List OptionPosition) : List Row → Except Unit FullPortfolio
  | [] => .ok ⟨stocks, options⟩
  | r :: rs =>
    let symbol := pyStrip r.symbol
    if symbol = "" then loadFullLoop today stocks options rs
    else if pyUpper symbol ∈ SKIP_SYMBOLS then loadFullLoop today stocks options rs
    else
      match parse_option_symbol today symbol with
      | .error e => .error e
      | .ok (some info) =>
          loadFullLoop today stocks (options ++ [mkOptionPosition symbol info r]) rs
      | .ok none =>
          let quantity := parse_int (if r.quantity = "" then "0" else r.quantity)
          if quantity > 0 then
            loadFullLoop today (dictSet stocks (pyUpper symbol) quantity) options rs
          else loadFullLoop today stocks options rs

/-- `load_full_portfolio`, from the row list of an available CSV file
(`None` for a missing file is handled by `load_full_portfolio_file`). -/
def load_full_portfolio (today : YMD) (rows : List Row) : Except Unit FullPortfolio :=
  loadFullLoop today [] [] rows

/-- `load_full_portfolio` including the existence check on the source file:
a missing file (`source = none`) is reported as `none` — absence of data —
never as a partial result. -/
def load_full_portfolio_file (today : YMD) (source : Option (List Row)) :
    Except Unit (Option FullPortfolio) :=
  match source with
  | none => .ok none
  | some rows => (load_full_portfolio today rows).map some

/-- The row loop of the legacy stocks-only `load_portfolio`: skips empty
symbols, any symbol containing `"Call"` or `"Put"`, and `CASH`/`TOTAL`;
its quantity conversion failure (`except: continue`) skips the row. -/
def loadStocksLoop (stocks : List (String × ℤ)) : List Row → List (String × ℤ)
  | [] => stocks
  | r :: rs =>
    let symbol := pyStrip r.symbol
    if symbol = "" then loadStocksLoop stocks rs
    else if pyContains symbol "Call" || pyContains symbol "Put" then loadStocksLoop stocks rs
    else if pyUpper symbol ∈ SKIP_SYMBOLS then loadStocksLoop stocks rs
    else
      match pyFloat? (pyRemoveChars [','] (if r.quantity = "" then "0" else r.quantity)) with
      | none => loadStocksLoop stocks rs
      | some q =>
          let quantity := pyTrunc q
          if quantity > 0 then loadStocksLoop (dictSet stocks (pyUpper symbol) quantity) rs
          else loadStocksLoop stocks rs

/-- The legacy `load_portfolio` (stocks only), from the row list of an
available CSV file. -/
def load_portfolio (rows : List Row) : List (String × ℤ) :=
  loadStocksLoop [] rows

/-! ## Scoring engine (`src/daily_market_summary.py`) -/

/-- `calculate_time_urgency_score(days_to_expiration)`: the 0–100 time
urgency of a contract, as a function of an integer number of days. -/
def calculate_time_urgency_score (d : ℤ) : ℚ :=
  if d < 7 then 100
  else if d ≤ 14 then 80
  else if d ≤ 30 then 60
  else if d ≤ 60 then 40
  else if d ≥ 180 then 0
  else max 0 (40 - ((d : ℚ) - 60) * 40 / 120)

/-- `max_loss_dollars`: the running maximum of `abs(total_gain)` over the
positions with `total_gain < 0`, starting from `0.0`. -/
def maxLossDollars (portfolio : List OptionPosition) : ℚ :=
  portfolio.foldl (fun m opt => if opt.total_gain < 0 then max m |opt.total_gain| else m) 0

/-- The local `loss_dollar_score` of the scoring loop. -/
def lossDollarScore (maxLoss : ℚ) (opt : OptionPosition) : ℚ :=
  if opt.total_gain < 0 ∧ 0 < maxLoss then |opt.total_gain| / maxLoss * 100 else 0

/-- The local `loss_percent_score` of the scoring loop. -/
def lossPercentScore (opt : OptionPosition) : ℚ :=
  if opt.total_gain_percent < 0 then min 100 |opt.total_gain_percent| else 0

/-- The local (unrounded) `combined_score` of the scoring loop:
`time*0.4 + loss_dollar*0.3 + loss_percent*0.3`. -/
def combinedScore (maxLoss : ℚ) (opt : OptionPosition) : ℚ :=
  calculate_time_urgency_score opt.days_to_expiration * (4 / 10)
    + lossDollarScore maxLoss opt * (3 / 10) + lossPercentScore opt * (3 / 10)

/-- The `urgency_level` cascade, applied by the source to the *unrounded*
combined score. -/
def urgencyLevel (cs : ℚ) : String :=
  if cs ≥ 90 then "CRITICAL"
  else if cs ≥ 70 then "HIGH"
  else if cs ≥ 50 then "MEDIUM"
  else "LOW"

/-- The `recommended_action` cascade of the scoring loop (the f-string number
is the `.1f`-formatted `total_gain_percent`). -/
def recommendedAction (maxLoss : ℚ) (opt : OptionPosition) : String :=
  if opt.is_short ∧ opt.total_gain_percent ≥ 60 then
    "BUY TO CLOSE - Lock in " ++ pyFormat1 opt.total_gain_percent ++ "% profit (TAKE PROFIT NOW)"
  else if opt.is_short ∧ opt.total_gain_percent ≥ 50 then
    "BUY TO CLOSE - Lock in " ++ pyFormat1 opt.total_gain_percent ++ "% profit (CONSIDER CLOSING)"
  else if opt.total_gain < 0 then
    if combinedScore maxLoss opt ≥ 90 then "CLOSE IMMEDIATELY - Catastrophic loss, time running out"
    else if combinedScore maxLoss opt ≥ 70 then "HIGH PRIORITY - Consider closing to stop losses"
    else if combinedScore maxLoss opt ≥ 50 then "MONITOR - Review position, consider action if worsens"
    else "WATCH - Track position for changes"
  else "HOLD - Position is profitable, no immediate action needed"

/-- The `position_data` dictionary built for each scored position. -/
structure ScoredPosition where
  symbol : String
  underlying_symbol : String
  days_to_expiration : ℤ
  expiration_date : YMD
  current_value : ℚ
  total_gain : ℚ
  total_gain_percent : ℚ
  position_type : String
  is_short : Bool
  time_urgency_score : ℚ
  loss_dollar_score : ℚ
  loss_percent_score : ℚ
  combined_priority_score : ℚ
  urgency_level : String
  recommended_action : String
  cost_to_close : ℚ
deriving DecidableEq, Repr

/-- One iteration of the scoring loop of `calculate_action_recommendations`:
the `position_data` built from one option position, given the portfolio-wide
`max_loss_dollars`. -/
def scorePosition (maxLoss : ℚ) (opt : OptionPosition) : ScoredPosition :=
  { symbol := opt.symbol
    underlying_symbol := opt.underlying_symbol
    days_to_expiration := opt.days_to_expiration
    expiration_date := opt.expiration_date
    current_value := opt.current_value
    total_gain := opt.total_gain
    total_gain_percent := opt.total_gain_percent
    position_type := opt.position_type
    is_short := opt.is_short
    time_urgency_score := pyRound2 (calculate_time_urgency_score opt.days_to_expiration)
    loss_dollar_score := pyRound2 (lossDollarScore maxLoss opt)
    loss_percent_score := pyRound2 (lossPercentScore opt)
    combined_priority_score := pyRound2 (combinedScore maxLoss opt)
    urgency_level := urgencyLevel (combinedScore maxLoss opt)
    recommended_action := recommendedAction maxLoss opt
    cost_to_close := pyRound2 |opt.current_value| }

/-- Python's stable `list.sort(key=k)` (ascending): merge sort with the
`≤`-on-keys comparator computes the same, unique, stable result. -/
def pySortAscBy {β : Type} [LinearOrder β] (key : α → β) (l : List α) : List α :=
  l.mergeSort (fun a b => decide (key a ≤ key b))

/-- Python's stable `list.sort(key=k, reverse=True)`: descending on keys,
ties kept in the original order. -/
def pySortDescBy {β : Type} [LinearOrder β] (key : α → β) (l : List α) : List α :=
  l.mergeSort (fun a b => decide (key b ≤ key a))

/-- The categorized recommendation report returned by
`calculate_action_recommendations`. -/
structure Recommendations where
  profit_taking_opportunities : List ScoredPosition
  urgent_losses : List ScoredPosition
  expiring_this_week : List ScoredPosition
  expiring_next_week : List ScoredPosition
  all_positions_by_priority : List ScoredPosition
deriving DecidableEq, Repr

/-- Filter of the `profit_taking_opportunities` view. -/
def profitTakingPred (p : ScoredPosition) : Bool :=
  p.is_short && decide (p.total_gain_percent ≥ 50)

/-- Filter of the `urgent_losses` view. -/
def urgentLossPred (p : ScoredPosition) : Bool :=
  decide (p.combined_priority_score ≥ 70)
    || (decide (p.days_to_expiration < 7) && decide (p.total_gain < 0))

/-- The categorization tail of `calculate_action_recommendations`: the
scored positions are filtered and stably sorted into the five views. -/
def categorize (scored : List ScoredPosition) : Recommendations :=
  { profit_taking_opportunities :=
      pySortDescBy (fun p => p.total_gain_percent) (scored.filter profitTakingPred)
    urgent_losses :=
      pySortDescBy (fun p => p.combined_priority_score) (scored.filter urgentLossPred)
    expiring_this_week :=
      pySortAscBy (fun p => p.days_to_expiration)
        (scored.filter (fun p => decide (p.days_to_expiration ≤ 7)))
    expiring_next_week :=
      pySortAscBy (fun p => p.days_to_expiration)
        (scored.filter (fun p => decide (p.days_to_expiration ≤ 14)))
    all_positions_by_priority :=
      pySortDescBy (fun p => p.combined_priority_score) scored }

/-- `calculate_action_recommendations(options_portfolio)`: `None` on an empty
portfolio; otherwise each position is scored against the portfolio-wide
`max_loss_dollars` and the scored positions are categorized. -/
def calculate_action_recommendations (portfolio : List OptionPosition) :
    Option Recommendations :=
  if portfolio.isEmpty then none
  else some (categorize (portfolio.map (scorePosition (maxLossDollars portfolio))))

/-! ## The recommended-action decision table (statement-side, from the spec)

The spec describes the recommended action as a first-match rule table; the
source implements it as a nested `if`/`elif` cascade.  `actionRuleTable` and
`firstMatch` below transcribe the spec's table; the C3 theorem proves the
source cascade refines it. -/

/-- First-match evaluation of a rule table. -/
def firstMatch (default : String) : List (Bool × String) → String
  | [] => default
  | (c, a) :: rs => if c then a else firstMatch default rs

/-- Modelled from the spec: the ordered rule table (a)–(f) of §4.4 step 6,
with rule (g) as the default. -/
def actionRuleTable (maxLoss : ℚ) (opt : OptionPosition) : List (Bool × String) :=
  [ (opt.is_short && decide (opt.total_gain_percent ≥ 60),
      "BUY TO CLOSE - Lock in " ++ pyFormat1 opt.total_gain_percent ++ "% profit (TAKE PROFIT NOW)"),
    (opt.is_short && decide (opt.total_gain_percent ≥ 50),
      "BUY TO CLOSE - Lock in " ++ pyFormat1 opt.total_gain_percent ++ "% profit (CONSIDER CLOSING)"),
    (decide (opt.total_gain < 0) && decide (combinedScore maxLoss opt ≥ 90),
      "CLOSE IMMEDIATELY - Catastrophic loss, time running out"),
    (decide (opt.total_gain < 0) && decide (combinedScore maxLoss opt ≥ 70),
      "HIGH PRIORITY - Consider closing to stop losses"),
    (decide (opt.total_gain < 0) && decide (combinedScore maxLoss opt ≥ 50),
      "MONITOR - Review position, consider action if worsens"),
    (decide (opt.total_gain < 0),
      "WATCH - Track position for changes") ]

/-- Modelled from the spec: the recommended action as first-match evaluation
of the rule table, defaulting to the hold action. -/
def recommendedActionSpec (maxLoss : ℚ) (opt : OptionPosition) : String :=
  firstMatch "HOLD - Position is profitable, no immediate action needed"
    (actionRuleTable maxLoss opt)

/-! ## Helper lemmas: rounding -/

theorem abs_roundHalfEven_sub (q : ℚ) : |(roundHalfEven q : ℚ) - q| ≤ 1 / 2 := by
  unfold roundHalfEven
  split_ifs with h h2
  · have hq : q - ⌊q⌋ = 1 / 2 := by
      have := h
      unfold Int.fract at this
      linarith [this]
    rw [abs_le]
    constructor <;> linarith
  · have hq : q - ⌊q⌋ = 1 / 2 := by
      have := h
      unfold Int.fract at this
      linarith [this]
    push_cast
    rw [abs_le]
    constructor <;> linarith
  · rw [abs_sub_comm]
    exact abs_sub_round q

theorem roundHalfEven_nonneg {q : ℚ} (h : 0 ≤ q) : 0 ≤ roundHalfEven q := by
  have hb := abs_roundHalfEven_sub q
  rw [abs_le] at hb
  by_contra hn
  push_neg at hn
  have h1 : roundHalfEven q ≤ -1 := by omega
  have h2 : ((roundHalfEven q : ℤ) : ℚ) ≤ -1 := by exact_mod_cast h1
  linarith [hb.1]

theorem roundHalfEven_le_of_le {q : ℚ} {m : ℤ} (h : q ≤ m) : roundHalfEven q ≤ m := by
  have hb := abs_roundHalfEven_sub q
  rw [abs_le] at hb
  by_contra hn
  push_neg at hn
  have h1 : m + 1 ≤ roundHalfEven q := by omega
  have h2 : ((m : ℚ) + 1) ≤ ((roundHalfEven q : ℤ) : ℚ) := by exact_mod_cast h1
  linarith [hb.2]

theorem pyRound2_nonneg {q : ℚ} (h : 0 ≤ q) : 0 ≤ pyRound2 q := by
  unfold pyRound2
  have h1 := roundHalfEven_nonneg (q := q * 100) (by linarith)
  have h2 : (0 : ℚ) ≤ (roundHalfEven (q * 100) : ℚ) := by exact_mod_cast h1
  linarith

theorem pyRound2_le_100 {q : ℚ} (h : q ≤ 100) : pyRound2 q ≤ 100 := by
  unfold pyRound2
  have h1 := roundHalfEven_le_of_le (q := q * 100) (m := 10000) (by push_cast; linarith)
  have h2 : ((roundHalfEven (q * 100) : ℤ) : ℚ) ≤ 10000 := by exact_mod_cast h1
  linarith

/-! ## Helper lemmas: time urgency -/

theorem time_bounds (d : ℤ) :
    0 ≤ calculate_time_urgency_score d ∧ calculate_time_urgency_score d ≤ 100 := by
  unfold calculate_time_urgency_score
  split_ifs with h1 h2 h3 h4 h5 <;>
    first
      | (norm_num; done)
      | (refine ⟨le_max_left _ _, max_le (by norm_num) ?_⟩;
         have h60 : (60:ℚ) < (d:ℚ) := by exact_mod_cast (show (60:ℤ) < d by omega);
         linarith)

theorem time_antitone {d e : ℤ} (h : d ≤ e) :
    calculate_time_urgency_score e ≤ calculate_time_urgency_score d := by
  have hde : (d : ℚ) ≤ (e : ℚ) := by exact_mod_cast h
  unfold calculate_time_urgency_score
  split_ifs <;>
    first
      | (exfalso; omega)
      | (norm_num; done)
      | (exact le_max_left _ _)
      | (refine max_le (by norm_num) ?_;
         have h60 : (60:ℚ) < (e:ℚ) := by exact_mod_cast (show (60:ℤ) < e by omega);
         linarith)
      | (refine max_le_max (le_refl (0:ℚ)) ?_; linarith)

/-! ## Helper lemmas: the portfolio-wide maximum loss -/

theorem maxLossFold_le (l : List OptionPosition) :
    ∀ a : ℚ, a ≤ l.foldl (fun m opt => if opt.total_gain < 0 then max m |opt.total_gain| else m) a := by
  induction l with
  | nil => intro a; simp
  | cons o l ih =>
    intro a
    simp only [List.foldl_cons]
    split_ifs with h
    · exact le_trans (le_max_left _ _) (ih _)
    · exact ih a

theorem le_maxLossFold_of_mem {p : OptionPosition} (hneg : p.total_gain < 0) :
    ∀ l : List OptionPosition, p ∈ l →
      ∀ a : ℚ, |p.total_gain| ≤ l.foldl (fun m opt => if opt.total_gain < 0 then max m |opt.total_gain| else m) a := by
  intro l
  induction l with
  | nil => intro hp; cases hp
  | cons o l ih =>
    intro hp a
    simp only [List.foldl_cons]
    rcases List.mem_cons.mp hp with h | h
    · subst h
      rw [if_pos hneg]
      exact le_trans (le_max_right _ _) (maxLossFold_le l _)
    · exact ih h _

theorem maxLossFold_cases (l : List OptionPosition) :
    ∀ a : ℚ,
      l.foldl (fun m opt => if opt.total_gain < 0 then max m |opt.total_gain| else m) a = a ∨
      ∃ p ∈ l, p.total_gain < 0 ∧
        l.foldl (fun m opt => if opt.total_gain < 0 then max m |opt.total_gain| else m) a = |p.total_gain| := by
  induction l with
  | nil => intro a; left; rfl
  | cons o l ih =>
    intro a
    simp only [List.foldl_cons]
    split_ifs with h
    · rcases ih (max a |o.total_gain|) with h1 | ⟨p, hp, hneg, heq⟩
      · rcases max_choice a |o.total_gain| with hm | hm
        · left; rw [h1, hm]
        · right; exact ⟨o, List.mem_cons_self o l, h, by rw [h1, hm]⟩
      · right; exact ⟨p, List.mem_cons_of_mem o hp, hneg, heq⟩
    · rcases ih a with h1 | ⟨p, hp, hneg, heq⟩
      · left; exact h1
      · right; exact ⟨p, List.mem_cons_of_mem o hp, hneg, heq⟩

theorem maxLossDollars_nonneg (l : List OptionPosition) : 0 ≤ maxLossDollars l :=
  maxLossFold_le l 0

theorem le_maxLossDollars {l : List OptionPosition} {p : OptionPosition}
    (hp : p ∈ l) (hneg : p.total_gain < 0) : |p.total_gain| ≤ maxLossDollars l :=
  le_maxLossFold_of_mem hneg l hp 0

theorem maxLossDollars_eq_zero_or_attained (l : List OptionPosition) :
    maxLossDollars l = 0 ∨
      ∃ p ∈ l, p.total_gain < 0 ∧ maxLossDollars l = |p.total_gain| :=
  maxLossFold_cases l 0

/-! ## Helper lemmas: stable sorting -/

section SortLemmas

variable {α : Type} {β : Type} [LinearOrder β] (key : α → β)

theorem descLe_trans : ∀ a b c : α, (fun a b => decide (key b ≤ key a)) a b →
    (fun a b => decide (key b ≤ key a)) b c → (fun a b => decide (key b ≤ key a)) a c := by
  intro a b c hab hbc
  simp only [decide_eq_true_eq] at *
  exact le_trans hbc hab

theorem descLe_total : ∀ a b : α,
    (fun a b => decide (key b ≤ key a)) a b || (fun a b => decide (key b ≤ key a)) b a := by
  intro a b
  simp only [Bool.or_eq_true, decide_eq_true_eq]
  exact le_total (key b) (key a)

theorem ascLe_trans : ∀ a b c : α, (fun a b => decide (key a ≤ key b)) a b →
    (fun a b => decide (key a ≤ key b)) b c → (fun a b => decide (key a ≤ key b)) a c := by
  intro a b c hab hbc
  simp only [decide_eq_true_eq] at *
  exact le_trans hab hbc

theorem ascLe_total : ∀ a b : α,
    (fun a b => decide (key a ≤ key b)) a b || (fun a b => decide (key a ≤ key b)) b a := by
  intro a b
  simp only [Bool.or_eq_true, decide_eq_true_eq]
  exact le_total (key a) (key b)

theorem pySortDescBy_perm (l : List α) : List.Perm (pySortDescBy key l) l :=
  List.mergeSort_perm l _

theorem pySortDescBy_mem (l : List α) (a : α) : a ∈ pySortDescBy key l ↔ a ∈ l :=
  List.mem_mergeSort

theorem pySortDescBy_sorted (l : List α) :
    (pySortDescBy key l).Pairwise (fun a b => key b ≤ key a) := by
  have h := List.sorted_mergeSort (descLe_trans key) (descLe_total key) l
  exact h.imp (fun hab => by simpa using hab)

theorem pySortDescBy_stable {a b : α} {l : List α} (hk : key a = key b)
    (h : List.Sublist [a, b] l) : List.Sublist [a, b] (pySortDescBy key l) :=
  List.pair_sublist_mergeSort (descLe_trans key) (descLe_total key)
    (by simp [hk]) h

theorem pySortAscBy_perm (l : List α) : List.Perm (pySortAscBy key l) l :=
  List.mergeSort_perm l _

theorem pySortAscBy_mem (l : List α) (a : α) : a ∈ pySortAscBy key l ↔ a ∈ l :=
  List.mem_mergeSort

theorem pySortAscBy_sorted (l : List α) :
    (pySortAscBy key l).Pairwise (fun a b => key a ≤ key b) := by
  have h := List.sorted_mergeSort (ascLe_trans key) (ascLe_total key) l
  exact h.imp (fun hab => by simpa using hab)

theorem pySortAscBy_stable {a b : α} {l : List α} (hk : key a = key b)
    (h : List.Sublist [a, b] l) : List.Sublist [a, b] (pySortAscBy key l) :=
  List.pair_sublist_mergeSort (ascLe_trans key) (ascLe_total key)
    (by simp [hk]) h

end SortLemmas

/-! ## Helper lemmas: the stock dictionary -/

theorem dictSet_lookup_self (k : String) (v : ℤ) :
    ∀ m : List (String × ℤ), (dictSet m k v).lookup k = some v := by
  intro m
  induction m with
  | nil => simp [dictSet, List.lookup]
  | cons p m ih =>
    by_cases h : p.1 = k
    · simp [dictSet, h, List.lookup]
    · have hb : (k == p.1) = false := beq_eq_false_iff_ne.mpr (by simpa [eq_comm] using h)
      simp only [dictSet, if_neg h, List.lookup, hb]
      exact ih

theorem dictSet_lookup_other {k k2 : String} (h : k2 ≠ k) (v : ℤ) :
    ∀ m : List (String × ℤ), (dictSet m k v).lookup k2 = m.lookup k2 := by
  intro m
  have hb : (k2 == k) = false := beq_eq_false_iff_ne.mpr h
  induction m with
  | nil => simp [dictSet, List.lookup, hb]
  | cons p m ih =>
    by_cases hp : p.1 = k
    · subst hp
      simp [dictSet, List.lookup, hb]
    · simp only [dictSet, if_neg hp, List.lookup]
      by_cases h2 : k2 = p.1
      · have : (k2 == p.1) = true := beq_iff_eq.mpr h2
        simp [this]
      · have : (k2 == p.1) = false := beq_eq_false_iff_ne.mpr h2
        simp only [this]
        exact ih

/-! ## Helper lemmas: the loader loops -/

theorem loadFullLoop_append (today : YMD) :
    ∀ (l₁ l₂ : List Row) (s : List (String × ℤ)) (o : List OptionPosition),
      loadFullLoop today s o (l₁ ++ l₂) =
        (loadFullLoop today s o l₁).bind
          (fun r => loadFullLoop today r.stocks_portfolio r.options_portfolio l₂) := by
  intro l₁
  induction l₁ with
  | nil => intro l₂ s o; rfl
  | cons r l ih =>
    intro l₂ s o
    by_cases h1 : pyStrip r.symbol = ""
    · simp only [List.cons_append, loadFullLoop, if_pos h1]
      exact ih l₂ s o
    · by_cases h2 : pyUpper (pyStrip r.symbol) ∈ SKIP_SYMBOLS
      · simp only [List.cons_append, loadFullLoop, if_neg h1, if_pos h2]
        exact ih l₂ s o
      · cases hp : parse_option_symbol today (pyStrip r.symbol) with
        | error e =>
          simp only [List.cons_append, loadFullLoop, if_neg h1, if_neg h2, hp]
          rfl
        | ok oi =>
          cases oi with
          | none =>
            simp only [List.cons_append, loadFullLoop, if_neg h1, if_neg h2, hp,
              List.append_eq]
            split_ifs <;> exact ih l₂ _ o
          | some info =>
            simp only [List.cons_append, loadFullLoop, if_neg h1, if_neg h2, hp,
              List.append_eq]
            exact ih l₂ s _

theorem loadStocksLoop_append :
    ∀ (l₁ l₂ : List Row) (s : List (String × ℤ)),
      loadStocksLoop s (l₁ ++ l₂) = loadStocksLoop (loadStocksLoop s l₁) l₂ := by
  intro l₁
  induction l₁ with
  | nil => intro l₂ s; rfl
  | cons r l ih =>
    intro l₂ s
    by_cases h1 : pyStrip r.symbol = ""
    · simp only [List.cons_append, loadStocksLoop, if_pos h1]
      exact ih l₂ s
    · by_cases h2 : (pyContains (pyStrip r.symbol) "Call" || pyContains (pyStrip r.symbol) "Put") = true
      · simp only [List.cons_append, loadStocksLoop, if_neg h1, if_pos h2]
        exact ih l₂ s
      · by_cases h3 : pyUpper (pyStrip r.symbol) ∈ SKIP_SYMBOLS
        · simp only [List.cons_append, loadStocksLoop, if_neg h1, if_neg h2, if_pos h3]
          exact ih l₂ s
        · cases hq : pyFloat? (pyRemoveChars [','] (if r.quantity = "" then "0" else r.quantity)) with
          | none =>
            simp only [List.cons_append, loadStocksLoop, if_neg h1, if_neg h2, if_neg h3, hq,
              List.append_eq]
            exact ih l₂ s
          | some q =>
            simp only [List.cons_append, loadStocksLoop, if_neg h1, if_neg h2, if_neg h3, hq,
              List.append_eq]
            split_ifs <;> exact ih l₂ _

/-! ## Claim theorems: scoring engine -/

/-- **C1.** For every options portfolio, with `maxLossDollars` the maximum of
`|totalGain|` over the positions with `totalGain < 0` (0 when there are
none), the scoring engine assigns every position a loss-dollar score that is
0 when `totalGain ≥ 0` or `maxLossDollars = 0` and `|totalGain| /
maxLossDollars * 100` otherwise, a loss-percent score that is 0 when
`totalGainPercent ≥ 0` and `min 100 |totalGainPercent|` otherwise, and a
combined priority score `round(0.4*time + 0.3*lossDollar + 0.3*lossPercent,
2)`; all three component scores and the combined score lie in `[0, 100]`. -/
theorem C1_component_scores (portfolio : List OptionPosition) (opt : OptionPosition)
    (hmem : opt ∈ portfolio) :
    (0 ≤ maxLossDollars portfolio) ∧
    (∀ p ∈ portfolio, p.total_gain < 0 → |p.total_gain| ≤ maxLossDollars portfolio) ∧
    (maxLossDollars portfolio = 0 ∨
      ∃ p ∈ portfolio, p.total_gain < 0 ∧ maxLossDollars portfolio = |p.total_gain|) ∧
    (lossDollarScore (maxLossDollars portfolio) opt =
      if 0 ≤ opt.total_gain ∨ maxLossDollars portfolio = 0 then 0
      else |opt.total_gain| / maxLossDollars portfolio * 100) ∧
    (lossPercentScore opt =
      if 0 ≤ opt.total_gain_percent then 0 else min 100 |opt.total_gain_percent|) ∧
    ((scorePosition (maxLossDollars portfolio) opt).combined_priority_score =
      pyRound2 ((0.4 : ℚ) * calculate_time_urgency_score opt.days_to_expiration
        + (0.3 : ℚ) * lossDollarScore (maxLossDollars portfolio) opt
        + (0.3 : ℚ) * lossPercentScore opt)) ∧
    (0 ≤ calculate_time_urgency_score opt.days_to_expiration ∧
      calculate_time_urgency_score opt.days_to_expiration ≤ 100) ∧
    (0 ≤ lossDollarScore (maxLossDollars portfolio) opt ∧
      lossDollarScore (maxLossDollars portfolio) opt ≤ 100) ∧
    (0 ≤ lossPercentScore opt ∧ lossPercentScore opt ≤ 100) ∧
    (0 ≤ (scorePosition (maxLossDollars portfolio) opt).combined_priority_score ∧
      (scorePosition (maxLossDollars portfolio) opt).combined_priority_score ≤ 100) := by
  have hM0 : 0 ≤ maxLossDollars portfolio := maxLossDollars_nonneg portfolio
  have htime := time_bounds opt.days_to_expiration
  have hld : 0 ≤ lossDollarScore (maxLossDollars portfolio) opt ∧
      lossDollarScore (maxLossDollars portfolio) opt ≤ 100 := by
    unfold lossDollarScore
    split_ifs with h
    · constructor
      · positivity
      · have hle : |opt.total_gain| ≤ maxLossDollars portfolio :=
          le_maxLossDollars hmem h.1
        rw [div_mul_eq_mul_div, div_le_iff₀ h.2]
        linarith
    · norm_num
  have hlp : 0 ≤ lossPercentScore opt ∧ lossPercentScore opt ≤ 100 := by
    unfold lossPercentScore
    split_ifs with h
    · exact ⟨le_min (by norm_num) (abs_nonneg _), min_le_left _ _⟩
    · norm_num
  have hcombined : (scorePosition (maxLossDollars portfolio) opt).combined_priority_score =
      pyRound2 (combinedScore (maxLossDollars portfolio) opt) := rfl
  have hraw : 0 ≤ combinedScore (maxLossDollars portfolio) opt ∧
      combinedScore (maxLossDollars portfolio) opt ≤ 100 := by
    unfold combinedScore
    constructor
    · have := htime.1; have := hld.1; have := hlp.1; nlinarith
    · have := htime.2; have := hld.2; have := hlp.2; nlinarith
  refine ⟨hM0, fun p hp hneg => le_maxLossDollars hp hneg,
    maxLossDollars_eq_zero_or_attained portfolio, ?_, ?_, ?_, htime, hld, hlp, ?_⟩
  · unfold lossDollarScore
    split_ifs with h1 h2 h2 <;> try rfl
    · rcases h2 with h2 | h2
      · exact absurd h1.1 (not_lt.mpr h2)
      · exact absurd h2 (ne_of_gt h1.2)
    · push_neg at h1 h2
      exact absurd (lt_of_le_of_ne hM0 (Ne.symm h2.2)) (fun hx => (h1 h2.1).not_lt hx)
  · unfold lossPercentScore
    split_ifs with h1 h2 h2 <;> first | rfl | (exfalso; exact absurd h1 (not_lt.mpr h2)) | (exfalso; linarith)
  · rw [hcombined]
    congr 1
    unfold combinedScore
    ring
  · rw [hcombined]
    exact ⟨pyRound2_nonneg hraw.1, pyRound2_le_100 hraw.2⟩

/-- A sample long position used to instantiate universally quantified
theorems: 1 day to expiration, total gain −300 (i.e. a 300-dollar loss),
total gain percent −20 (spec §8, Example 2). -/
def sampleLongLoser : OptionPosition :=
  { symbol := "MSFT Feb 14 '25 $400 Put"
    underlying_symbol := "MSFT"
    expiration_date := ⟨2025, 2, 14⟩
    strike_price := 400
    option_type := "Put"
    days_to_expiration := 1
    quantity := 1
    is_short := false
    position_type := "long"
    price_paid := 3
    current_price := 0
    days_gain := 0
    total_gain := -300
    total_gain_percent := -20
    current_value := 150 }

/-- Witness for C1 at the concrete Example-2 position. -/
theorem C1_component_scores_witness :
    sampleLongLoser ∈ [sampleLongLoser] ∧
      0 ≤ (scorePosition (maxLossDollars [sampleLongLoser]) sampleLongLoser).combined_priority_score ∧
      (scorePosition (maxLossDollars [sampleLongLoser]) sampleLongLoser).combined_priority_score ≤ 100 :=
  ⟨List.mem_singleton.mpr rfl,
    (C1_component_scores [sampleLongLoser] sampleLongLoser (List.mem_singleton.mpr rfl)).2.2.2.2.2.2.2.2.2⟩

/-- **C2.** For every integer days-to-expiration `d`,
`calculate_time_urgency_score d` lies in `[0, 100]`, is non-increasing in
`d`, and equals 100 for `d < 7` (negative `d` included), 80 for
`7 ≤ d ≤ 14`, 60 for `15 ≤ d ≤ 30`, 40 for `31 ≤ d ≤ 60`,
`max 0 (40 - (d - 60) * 40 / 120)` for `60 < d < 180`, and 0 for
`d ≥ 180`. -/
theorem C2_time_urgency_score (d : ℤ) :
    (0 ≤ calculate_time_urgency_score d ∧ calculate_time_urgency_score d ≤ 100) ∧
    (∀ e : ℤ, d ≤ e → calculate_time_urgency_score e ≤ calculate_time_urgency_score d) ∧
    (d < 7 → calculate_time_urgency_score d = 100) ∧
    (7 ≤ d → d ≤ 14 → calculate_time_urgency_score d = 80) ∧
    (15 ≤ d → d ≤ 30 → calculate_time_urgency_score d = 60) ∧
    (31 ≤ d → d ≤ 60 → calculate_time_urgency_score d = 40) ∧
    (60 < d → d < 180 → calculate_time_urgency_score d =
      max 0 (40 - ((d : ℚ) - 60) * 40 / 120)) ∧
    (180 ≤ d → calculate_time_urgency_score d = 0) := by
  refine ⟨time_bounds d, fun e he => time_antitone he, ?_, ?_, ?_, ?_, ?_, ?_⟩ <;>
    (intros; unfold calculate_time_urgency_score; split_ifs <;> first | rfl | omega)

/-- Witness for C2 at concrete days: 3 (inside the `< 7` bucket) and its
comparison with 100 days. -/
theorem C2_time_urgency_score_witness :
    calculate_time_urgency_score 100 ≤ calculate_time_urgency_score 3 ∧
      calculate_time_urgency_score 3 = 100 ∧ calculate_time_urgency_score 10 = 80 :=
  ⟨(C2_time_urgency_score 3).2.1 100 (by norm_num),
    (C2_time_urgency_score 3).2.2.1 (by norm_num),
    (C2_time_urgency_score 10).2.2.2.1 (by norm_num) (by norm_num)⟩

/-- **C3.** For every scored option position, the recommended action is the
first matching rule of the spec's ordered decision table: (a) short and
`totalGainPercent ≥ 60` → take-profit-now; (b) short and
`totalGainPercent ≥ 50` → consider-closing; (c) `totalGain < 0` and combined
score ≥ 90 → close-immediately; (d) `totalGain < 0` and combined ≥ 70 →
high-priority; (e) `totalGain < 0` and combined ≥ 50 → monitor; (f)
`totalGain < 0` → watch; (g) otherwise → hold. -/
theorem C3_recommended_action (maxLoss : ℚ) (opt : OptionPosition) :
    (recommendedAction maxLoss opt = recommendedActionSpec maxLoss opt) ∧
    (opt.is_short = true → 60 ≤ opt.total_gain_percent →
      recommendedAction maxLoss opt =
        "BUY TO CLOSE - Lock in " ++ pyFormat1 opt.total_gain_percent ++ "% profit (TAKE PROFIT NOW)") ∧
    (opt.is_short = true → 50 ≤ opt.total_gain_percent → opt.total_gain_percent < 60 →
      recommendedAction maxLoss opt =
        "BUY TO CLOSE - Lock in " ++ pyFormat1 opt.total_gain_percent ++ "% profit (CONSIDER CLOSING)") ∧
    (¬(opt.is_short = true ∧ 50 ≤ opt.total_gain_percent) → opt.total_gain < 0 →
      90 ≤ combinedScore maxLoss opt →
      recommendedAction maxLoss opt = "CLOSE IMMEDIATELY - Catastrophic loss, time running out") ∧
    (¬(opt.is_short = true ∧ 50 ≤ opt.total_gain_percent) → opt.total_gain < 0 →
      70 ≤ combinedScore maxLoss opt → combinedScore maxLoss opt < 90 →
      recommendedAction maxLoss opt = "HIGH PRIORITY - Consider closing to stop losses") ∧
    (¬(opt.is_short = true ∧ 50 ≤ opt.total_gain_percent) → opt.total_gain < 0 →
      50 ≤ combinedScore maxLoss opt → combinedScore maxLoss opt < 70 →
      recommendedAction maxLoss opt = "MONITOR - Review position, consider action if worsens") ∧
    (¬(opt.is_short = true ∧ 50 ≤ opt.total_gain_percent) → opt.total_gain < 0 →
      combinedScore maxLoss opt < 50 →
      recommendedAction maxLoss opt = "WATCH - Track position for changes") ∧
    (¬(opt.is_short = true ∧ 50 ≤ opt.total_gain_percent) → 0 ≤ opt.total_gain →
      recommendedAction maxLoss opt =
        "HOLD - Position is profitable, no immediate action needed") ∧
    ((scorePosition maxLoss opt).recommended_action = recommendedAction maxLoss opt) := by
  constructor
  · simp only [recommendedAction, recommendedActionSpec, actionRuleTable, firstMatch,
      Bool.and_eq_true, decide_eq_true_eq]
    by_cases h1 : opt.is_short = true ∧ opt.total_gain_percent ≥ 60
    · rw [if_pos h1, if_pos h1]
    · rw [if_neg h1, if_neg h1]
      by_cases h2 : opt.is_short = true ∧ opt.total_gain_percent ≥ 50
      · rw [if_pos h2, if_pos h2]
      · rw [if_neg h2, if_neg h2]
        by_cases htg : opt.total_gain < 0
        · rw [if_pos htg]
          by_cases h90 : combinedScore maxLoss opt ≥ 90
          · rw [if_pos h90, if_pos ⟨htg, h90⟩]
          · rw [if_neg h90,
              if_neg (show ¬(opt.total_gain < 0 ∧ combinedScore maxLoss opt ≥ 90) from
                fun h => h90 h.2)]
            by_cases h70 : combinedScore maxLoss opt ≥ 70
            · rw [if_pos h70, if_pos ⟨htg, h70⟩]
            · rw [if_neg h70,
                if_neg (show ¬(opt.total_gain < 0 ∧ combinedScore maxLoss opt ≥ 70) from
                  fun h => h70 h.2)]
              by_cases h50 : combinedScore maxLoss opt ≥ 50
              · rw [if_pos h50, if_pos ⟨htg, h50⟩]
              · rw [if_neg h50,
                  if_neg (show ¬(opt.total_gain < 0 ∧ combinedScore maxLoss opt ≥ 50) from
                    fun h => h50 h.2),
                  if_pos htg]
        · rw [if_neg htg,
            if_neg (show ¬(opt.total_gain < 0 ∧ combinedScore maxLoss opt ≥ 90) from
              fun h => htg h.1),
            if_neg (show ¬(opt.total_gain < 0 ∧ combinedScore maxLoss opt ≥ 70) from
              fun h => htg h.1),
            if_neg (show ¬(opt.total_gain < 0 ∧ combinedScore maxLoss opt ≥ 50) from
              fun h => htg h.1),
            if_neg htg]
  · refine ⟨?_, ?_, ?_, ?_, ?_, ?_, ?_, rfl⟩
    · intro hs h60
      unfold recommendedAction
      rw [if_pos ⟨hs, h60⟩]
    · intro hs h50 h60
      unfold recommendedAction
      rw [if_neg (fun h => absurd h.2 (not_le.mpr h60)), if_pos ⟨hs, h50⟩]
    · intro hnb htg h90
      unfold recommendedAction
      rw [if_neg (fun h => hnb ⟨h.1, le_trans (by norm_num) h.2⟩), if_neg hnb, if_pos htg,
        if_pos h90]
    · intro hnb htg h70 h90
      unfold recommendedAction
      rw [if_neg (fun h => hnb ⟨h.1, le_trans (by norm_num) h.2⟩), if_neg hnb, if_pos htg,
        if_neg (not_le.mpr h90), if_pos h70]
    · intro hnb htg h50 h70
      unfold recommendedAction
      rw [if_neg (fun h => hnb ⟨h.1, le_trans (by norm_num) h.2⟩), if_neg hnb, if_pos htg,
        if_neg (not_le.mpr (lt_of_lt_of_le h70 (by norm_num))), if_neg (not_le.mpr h70),
        if_pos h50]
    · intro hnb htg h50
      unfold recommendedAction
      rw [if_neg (fun h => hnb ⟨h.1, le_trans (by norm_num) h.2⟩), if_neg hnb, if_pos htg,
        if_neg (not_le.mpr (lt_of_lt_of_le h50 (by norm_num))),
        if_neg (not_le.mpr (lt_of_lt_of_le h50 (by norm_num))), if_neg (not_le.mpr h50)]
    · intro hnb htg0
      unfold recommendedAction
      rw [if_neg (fun h => hnb ⟨h.1, le_trans (by norm_num) h.2⟩), if_neg hnb,
        if_neg (not_lt.mpr htg0)]

/-- A sample short position with a 65% gain, used to instantiate quantified
theorems on the take-profit rule. -/
def sampleShortWinner : OptionPosition :=
  { symbol := "NVDA Feb 27 '26 $195 Call"
    underlying_symbol := "NVDA"
    expiration_date := ⟨2026, 2, 27⟩
    strike_price := 195
    option_type := "Call"
    days_to_expiration := 120
    quantity := -1
    is_short := true
    position_type := "short"
    price_paid := 10
    current_price := 3
    days_gain := 0
    total_gain := 700
    total_gain_percent := 65
    current_value := -350 }

/-- Witness for C3: the short position with a 65% gain hits rule (a). -/
theorem C3_recommended_action_witness :
    recommendedAction 0 sampleShortWinner =
      "BUY TO CLOSE - Lock in " ++ pyFormat1 sampleShortWinner.total_gain_percent
        ++ "% profit (TAKE PROFIT NOW)" :=
  (C3_recommended_action 0 sampleShortWinner).2.1 rfl (by norm_num [sampleShortWinner])

/-- **C5 (amended).** The urgency tier is derived by inclusive lower-bound
thresholds in descending order (≥90 CRITICAL, ≥70 HIGH, ≥50 MEDIUM, else
LOW) from the *unrounded* combined score `0.4*time + 0.3*lossDollar +
0.3*lossPercent` — not from the combined priority score rounded to two
decimal places that is stored on the position. -/
theorem C5_urgency_tier (maxLoss : ℚ) (opt : OptionPosition) :
    ((scorePosition maxLoss opt).urgency_level = urgencyLevel (combinedScore maxLoss opt)) ∧
    (∀ cs : ℚ, 90 ≤ cs → urgencyLevel cs = "CRITICAL") ∧
    (∀ cs : ℚ, 70 ≤ cs → cs < 90 → urgencyLevel cs = "HIGH") ∧
    (∀ cs : ℚ, 50 ≤ cs → cs < 70 → urgencyLevel cs = "MEDIUM") ∧
    (∀ cs : ℚ, cs < 50 → urgencyLevel cs = "LOW") := by
  refine ⟨rfl, ?_, ?_, ?_, ?_⟩
  · intro cs h
    unfold urgencyLevel
    rw [if_pos h]
  · intro cs h1 h2
    unfold urgencyLevel
    rw [if_neg (not_le.mpr h2), if_pos h1]
  · intro cs h1 h2
    unfold urgencyLevel
    rw [if_neg (not_le.mpr (lt_of_lt_of_le h2 (by norm_num))), if_neg (not_le.mpr h2),
      if_pos h1]
  · intro cs h
    unfold urgencyLevel
    rw [if_neg (not_le.mpr (lt_of_lt_of_le h (by norm_num))),
      if_neg (not_le.mpr (lt_of_lt_of_le h (by norm_num))), if_neg (not_le.mpr h)]

/-- Witness for C5 (amended) at concrete tier inputs. -/
theorem C5_urgency_tier_witness :
    (scorePosition 0 sampleLongLoser).urgency_level =
        urgencyLevel (combinedScore 0 sampleLongLoser) ∧
      urgencyLevel 95 = "CRITICAL" ∧ urgencyLevel 75 = "HIGH" :=
  ⟨(C5_urgency_tier 0 sampleLongLoser).1,
    (C5_urgency_tier 0 sampleLongLoser).2.1 95 (by norm_num),
    (C5_urgency_tier 0 sampleLongLoser).2.2.1 75 (by norm_num) (by norm_num)⟩

/-- The C5 counterexample position: a sole losing position (so its
loss-dollar score is 100) expiring today (time score 100) with total gain
percent −66.6533.  Its unrounded combined score is 89.99599, which rounds to
a stored combined priority score of 90.00, yet the source computes the tier
from the unrounded value and reports HIGH, not CRITICAL. -/
def roundedTierCex : OptionPosition :=
  { symbol := "XYZ Oct 12 '26 $10 Call"
    underlying_symbol := "XYZ"
    expiration_date := ⟨2026, 10, 12⟩
    strike_price := 10
    option_type := "Call"
    days_to_expiration := 0
    quantity := 1
    is_short := false
    position_type := "long"
    price_paid := 150
    current_price := 50
    days_gain := 0
    total_gain := -100
    total_gain_percent := -666533 / 10000
    current_value := 50 }

/-- Counterexample to C5 as stated: the stored (rounded) combined priority
score is ≥ 90, but the urgency tier is not CRITICAL. -/
theorem C5_urgency_tier_counterexample :
    90 ≤ (scorePosition (maxLossDollars [roundedTierCex]) roundedTierCex).combined_priority_score ∧
      (scorePosition (maxLossDollars [roundedTierCex]) roundedTierCex).urgency_level ≠
        "CRITICAL" := by
  have hM : maxLossDollars [roundedTierCex] = 100 := by
    norm_num [maxLossDollars, roundedTierCex]
  have hcs : combinedScore 100 roundedTierCex = 8999599 / 100000 := by
    norm_num [combinedScore, lossDollarScore, lossPercentScore,
      calculate_time_urgency_score, roundedTierCex, min_def]
    rw [abs_of_nonneg (by norm_num : (0:ℚ) ≤ 666533 / 10000),
      if_neg (by norm_num : ¬ (100:ℚ) ≤ 666533 / 10000)]
    norm_num
  have hfloor : ⌊(8999599 / 1000 : ℚ)⌋ = 8999 := by
    rw [Int.floor_eq_iff]
    norm_num
  have hfr : Int.fract (8999599 / 1000 : ℚ) ≠ 1 / 2 := by
    unfold Int.fract
    rw [hfloor]
    norm_num
  have hround : roundHalfEven (8999599 / 1000 : ℚ) = 9000 := by
    unfold roundHalfEven
    rw [if_neg hfr, round_eq]
    rw [show (8999599 / 1000 : ℚ) + 1 / 2 = 9000099 / 1000 by norm_num]
    rw [Int.floor_eq_iff]
    norm_num
  have hp2 : pyRound2 (8999599 / 100000 : ℚ) = 90 := by
    unfold pyRound2
    rw [show (8999599 / 100000 : ℚ) * 100 = 8999599 / 1000 by norm_num, hround]
    norm_num
  have hscore : (scorePosition (maxLossDollars [roundedTierCex]) roundedTierCex).combined_priority_score
      = 90 := by
    show pyRound2 (combinedScore (maxLossDollars [roundedTierCex]) roundedTierCex) = 90
    rw [hM, hcs, hp2]
  have htier : (scorePosition (maxLossDollars [roundedTierCex]) roundedTierCex).urgency_level
      = "HIGH" := by
    show urgencyLevel (combinedScore (maxLossDollars [roundedTierCex]) roundedTierCex) = "HIGH"
    rw [hM, hcs]
    unfold urgencyLevel
    rw [if_neg (by norm_num), if_pos (by norm_num)]
  rw [hscore, htier]
  exact ⟨le_refl _, by decide⟩

/-- **C4.** The categorizer yields exactly five views: profit-taking =
short positions with `totalGainPercent ≥ 50` sorted by `totalGainPercent`
descending; urgent losses = positions with combined priority score ≥ 70 or
(days-to-expiration < 7 and `totalGain < 0`) sorted by combined score
descending; expiring this week = days-to-expiration ≤ 7 ascending; expiring
next week = days-to-expiration ≤ 14 ascending (a superset of this week);
all-by-priority = every position by combined score descending; and every
sort is stable: tied positions keep their input order. -/
theorem C4_categorizer (scored : List ScoredPosition) :
    (List.Perm (categorize scored).profit_taking_opportunities
      (scored.filter profitTakingPred)) ∧
    ((categorize scored).profit_taking_opportunities.Pairwise
      (fun a b => b.total_gain_percent ≤ a.total_gain_percent)) ∧
    (∀ a b : ScoredPosition, a.total_gain_percent = b.total_gain_percent →
      List.Sublist [a, b] scored → profitTakingPred a = true → profitTakingPred b = true →
      List.Sublist [a, b] (categorize scored).profit_taking_opportunities) ∧
    (∀ p : ScoredPosition, p ∈ (categorize scored).profit_taking_opportunities ↔
      p ∈ scored ∧ p.is_short = true ∧ 50 ≤ p.total_gain_percent) ∧
    (List.Perm (categorize scored).urgent_losses (scored.filter urgentLossPred)) ∧
    ((categorize scored).urgent_losses.Pairwise
      (fun a b => b.combined_priority_score ≤ a.combined_priority_score)) ∧
    (∀ a b : ScoredPosition, a.combined_priority_score = b.combined_priority_score →
      List.Sublist [a, b] scored → urgentLossPred a = true → urgentLossPred b = true →
      List.Sublist [a, b] (categorize scored).urgent_losses) ∧
    (∀ p : ScoredPosition, p ∈ (categorize scored).urgent_losses ↔
      p ∈ scored ∧ (70 ≤ p.combined_priority_score ∨
        (p.days_to_expiration < 7 ∧ p.total_gain < 0))) ∧
    (List.Perm (categorize scored).expiring_this_week
      (scored.filter (fun p => decide (p.days_to_expiration ≤ 7)))) ∧
    ((categorize scored).expiring_this_week.Pairwise
      (fun a b => a.days_to_expiration ≤ b.days_to_expiration)) ∧
    (∀ a b : ScoredPosition, a.days_to_expiration = b.days_to_expiration →
      List.Sublist [a, b] scored → a.days_to_expiration ≤ 7 → b.days_to_expiration ≤ 7 →
      List.Sublist [a, b] (categorize scored).expiring_this_week) ∧
    (∀ p : ScoredPosition, p ∈ (categorize scored).expiring_this_week ↔
      p ∈ scored ∧ p.days_to_expiration ≤ 7) ∧
    (List.Perm (categorize scored).expiring_next_week
      (scored.filter (fun p => decide (p.days_to_expiration ≤ 14)))) ∧
    ((categorize scored).expiring_next_week.Pairwise
      (fun a b => a.days_to_expiration ≤ b.days_to_expiration)) ∧
    (∀ a b : ScoredPosition, a.days_to_expiration = b.days_to_expiration →
      List.Sublist [a, b] scored → a.days_to_expiration ≤ 14 → b.days_to_expiration ≤ 14 →
      List.Sublist [a, b] (categorize scored).expiring_next_week) ∧
    (∀ p : ScoredPosition, p ∈ (categorize scored).expiring_next_week ↔
      p ∈ scored ∧ p.days_to_expiration ≤ 14) ∧
    (∀ p : ScoredPosition, p ∈ (categorize scored).expiring_this_week →
      p ∈ (categorize scored).expiring_next_week) ∧
    (List.Perm (categorize scored).all_positions_by_priority scored) ∧
    ((categorize scored).all_positions_by_priority.Pairwise
      (fun a b => b.combined_priority_score ≤ a.combined_priority_score)) ∧
    (∀ a b : ScoredPosition, a.combined_priority_score = b.combined_priority_score →
      List.Sublist [a, b] scored →
      List.Sublist [a, b] (categorize scored).all_positions_by_priority) ∧
    (∀ portfolio : List OptionPosition, ¬ portfolio.isEmpty →
      calculate_action_recommendations portfolio =
        some (categorize (portfolio.map (scorePosition (maxLossDollars portfolio))))) := by
  have hmemThis : ∀ p : ScoredPosition, p ∈ (categorize scored).expiring_this_week ↔
      p ∈ scored ∧ p.days_to_expiration ≤ 7 := by
    intro p
    unfold categorize
    rw [pySortAscBy_mem, List.mem_filter]
    simp
  have hmemNext : ∀ p : ScoredPosition, p ∈ (categorize scored).expiring_next_week ↔
      p ∈ scored ∧ p.days_to_expiration ≤ 14 := by
    intro p
    unfold categorize
    rw [pySortAscBy_mem, List.mem_filter]
    simp
  refine ⟨pySortDescBy_perm _ _, pySortDescBy_sorted _ _, ?_, ?_,
    pySortDescBy_perm _ _, pySortDescBy_sorted _ _, ?_, ?_,
    pySortAscBy_perm _ _, pySortAscBy_sorted _ _, ?_, hmemThis,
    pySortAscBy_perm _ _, pySortAscBy_sorted _ _, ?_, hmemNext,
    ?_, pySortDescBy_perm _ _, pySortDescBy_sorted _ _, ?_, ?_⟩
  · intro a b hk hsub ha hb
    have h1 := hsub.filter profitTakingPred
    rw [show List.filter profitTakingPred [a, b] = [a, b] by simp [ha, hb]] at h1
    exact pySortDescBy_stable _ hk h1
  · intro p
    unfold categorize
    rw [pySortDescBy_mem, List.mem_filter]
    simp [profitTakingPred, and_assoc]
  · intro a b hk hsub ha hb
    have h1 := hsub.filter urgentLossPred
    rw [show List.filter urgentLossPred [a, b] = [a, b] by simp [ha, hb]] at h1
    exact pySortDescBy_stable _ hk h1
  · intro p
    unfold categorize
    rw [pySortDescBy_mem, List.mem_filter]
    simp [urgentLossPred]
  · intro a b hk hsub ha hb
    have h1 := hsub.filter (fun p => decide (p.days_to_expiration ≤ 7))
    rw [show List.filter (fun p => decide (p.days_to_expiration ≤ 7)) [a, b] = [a, b] by
      simp [ha, hb]] at h1
    exact pySortAscBy_stable _ hk h1
  · intro a b hk hsub ha hb
    have h1 := hsub.filter (fun p => decide (p.days_to_expiration ≤ 14))
    rw [show List.filter (fun p => decide (p.days_to_expiration ≤ 14)) [a, b] = [a, b] by
      simp [ha, hb]] at h1
    exact pySortAscBy_stable _ hk h1
  · intro p hp
    rw [hmemNext]
    rcases (hmemThis p).mp hp with ⟨h1, h2⟩
    exact ⟨h1, by omega⟩
  · intro a b hk hsub
    exact pySortDescBy_stable _ hk hsub
  · intro portfolio h
    unfold calculate_action_recommendations
    rw [if_neg h]

/-- Two scored positions tied on every sort key, used to witness sort
stability. -/
def sampleScoredTieA : ScoredPosition :=
  { symbol := "A", underlying_symbol := "A", days_to_expiration := 5,
    expiration_date := ⟨2026, 1, 1⟩, current_value := -100, total_gain := 200,
    total_gain_percent := 55, position_type := "short", is_short := true,
    time_urgency_score := 100, loss_dollar_score := 0, loss_percent_score := 0,
    combined_priority_score := 40, urgency_level := "LOW",
    recommended_action := "", cost_to_close := 100 }

/-- Second element of the tied pair (a different symbol, same keys). -/
def sampleScoredTieB : ScoredPosition :=
  { sampleScoredTieA with symbol := "B", underlying_symbol := "B" }

/-- Witness for C4: the tied short pair stays in input order in the
profit-taking view, and the recommendation entry point feeds the
categorizer. -/
theorem C4_categorizer_witness :
    List.Sublist [sampleScoredTieA, sampleScoredTieB]
        (categorize [sampleScoredTieA, sampleScoredTieB]).profit_taking_opportunities ∧
      calculate_action_recommendations [sampleShortWinner] =
        some (categorize
          ([sampleShortWinner].map (scorePosition (maxLossDollars [sampleShortWinner])))) :=
  ⟨(C4_categorizer [sampleScoredTieA, sampleScoredTieB]).2.2.1 sampleScoredTieA sampleScoredTieB
      rfl (List.Sublist.refl _) (by decide) (by decide),
    (C4_categorizer []).2.2.2.2.2.2.2.2.2.2.2.2.2.2.2.2.2.2.2.2 [sampleShortWinner]
      (by decide)⟩

/-! ## Claim theorems: parsing and loading -/

theorem loadFullLoop_skip (today : YMD) (r : Row)
    (h : pyStrip r.symbol = "" ∨ pyUpper (pyStrip r.symbol) ∈ SKIP_SYMBOLS) :
    ∀ (s : List (String × ℤ)) (o : List OptionPosition) (rows : List Row),
      loadFullLoop today s o (r :: rows) = loadFullLoop today s o rows := by
  intro s o rows
  by_cases h0 : pyStrip r.symbol = ""
  · simp only [loadFullLoop, if_pos h0]
  · rcases h with h | h
    · exact absurd h h0
    · simp only [loadFullLoop, if_neg h0, if_pos h]

/-- **C8.** The assembler iterates in file order; rows with an empty trimmed
symbol or a reserved symbol (CASH/TOTAL, uppercased) are skipped entirely;
stock rows with quantity ≤ 0 are discarded; appending a stock row overwrites
an existing ticker binding (last-row-wins, witnessed through `lookup`);
appending an option row appends one entry, keeping duplicates distinct. -/
theorem C8_assembler (today : YMD) :
    (∀ (rows₁ rows₂ : List Row) (r : Row),
      pyStrip r.symbol = "" ∨ pyUpper (pyStrip r.symbol) ∈ SKIP_SYMBOLS →
      load_full_portfolio today (rows₁ ++ r :: rows₂) =
        load_full_portfolio today (rows₁ ++ rows₂)) ∧
    (∀ (rows : List Row) (r : Row) (res : FullPortfolio),
      load_full_portfolio today rows = .ok res →
      pyStrip r.symbol ≠ "" → pyUpper (pyStrip r.symbol) ∉ SKIP_SYMBOLS →
      parse_option_symbol today (pyStrip r.symbol) = .ok none →
      parse_int (if r.quantity = "" then "0" else r.quantity) ≤ 0 →
      load_full_portfolio today (rows ++ [r]) = .ok res) ∧
    (∀ (rows : List Row) (r : Row) (res : FullPortfolio),
      load_full_portfolio today rows = .ok res →
      pyStrip r.symbol ≠ "" → pyUpper (pyStrip r.symbol) ∉ SKIP_SYMBOLS →
      parse_option_symbol today (pyStrip r.symbol) = .ok none →
      0 < parse_int (if r.quantity = "" then "0" else r.quantity) →
      load_full_portfolio today (rows ++ [r]) = .ok
        ⟨dictSet res.stocks_portfolio (pyUpper (pyStrip r.symbol))
            (parse_int (if r.quantity = "" then "0" else r.quantity)),
          res.options_portfolio⟩) ∧
    (∀ (m : List (String × ℤ)) (k : String) (v : ℤ),
      (dictSet m k v).lookup k = some v) ∧
    (∀ (m : List (String × ℤ)) (k k2 : String) (v : ℤ), k2 ≠ k →
      (dictSet m k v).lookup k2 = m.lookup k2) ∧
    (∀ (rows : List Row) (r : Row) (res : FullPortfolio) (info : OptionInfo),
      load_full_portfolio today rows = .ok res →
      pyStrip r.symbol ≠ "" → pyUpper (pyStrip r.symbol) ∉ SKIP_SYMBOLS →
      parse_option_symbol today (pyStrip r.symbol) = .ok (some info) →
      load_full_portfolio today (rows ++ [r]) = .ok
        ⟨res.stocks_portfolio,
          res.options_portfolio ++ [mkOptionPosition (pyStrip r.symbol) info r]⟩) := by
  refine ⟨?_, ?_, ?_, fun m k v => dictSet_lookup_self k v m,
    fun m k k2 v h => dictSet_lookup_other h v m, ?_⟩
  · intro rows₁ rows₂ r h
    unfold load_full_portfolio
    rw [loadFullLoop_append, loadFullLoop_append]
    congr 1
    funext res
    exact loadFullLoop_skip today r h res.stocks_portfolio res.options_portfolio rows₂
  · intro rows r res hres hs hskip hparse hq
    unfold load_full_portfolio at hres ⊢
    rw [loadFullLoop_append, hres]
    show loadFullLoop today res.stocks_portfolio res.options_portfolio [r] = .ok res
    simp only [loadFullLoop, if_neg hs, if_neg hskip, hparse]
    rw [if_neg (by omega)]
  · intro rows r res hres hs hskip hparse hq
    unfold load_full_portfolio at hres ⊢
    rw [loadFullLoop_append, hres]
    show loadFullLoop today res.stocks_portfolio res.options_portfolio [r] = .ok
      ⟨dictSet res.stocks_portfolio (pyUpper (pyStrip r.symbol))
          (parse_int (if r.quantity = "" then "0" else r.quantity)),
        res.options_portfolio⟩
    simp only [loadFullLoop, if_neg hs, if_neg hskip, hparse]
    rw [if_pos hq]
  · intro rows r res info hres hs hskip hparse
    unfold load_full_portfolio at hres ⊢
    rw [loadFullLoop_append, hres]
    show loadFullLoop today res.stocks_portfolio res.options_portfolio [r] = .ok
      ⟨res.stocks_portfolio,
        res.options_portfolio ++ [mkOptionPosition (pyStrip r.symbol) info r]⟩
    simp only [loadFullLoop, if_neg hs, if_neg hskip, hparse]

/-- A fixed reference date used by the concrete loader evaluations. -/
def refToday : YMD := ⟨2025, 10, 1⟩

/-- Witness rows for the assembler theorem. -/
def wTotalRow : Row := { emptyRow with symbol := "TOTAL", quantity := "5" }

/-- A plain stock row. -/
def wMsftRow : Row := { emptyRow with symbol := "MSFT", quantity := "2" }

/-- Witness for C8: a `TOTAL` row is skipped, and a well-formed stock row is
appended with last-row-wins semantics. -/
theorem C8_assembler_witness :
    load_full_portfolio refToday ([] ++ wTotalRow :: []) = load_full_portfolio refToday ([] ++ []) ∧
      load_full_portfolio refToday ([] ++ [wMsftRow]) =
        .ok ⟨dictSet ([] : List (String × ℤ)) (pyUpper (pyStrip wMsftRow.symbol))
          (parse_int (if wMsftRow.quantity = "" then "0" else wMsftRow.quantity)), []⟩ ∧
      (dictSet [("MSFT", 7)] "MSFT" 2).lookup "MSFT" = some 2 :=
  ⟨(C8_assembler refToday).1 [] [] wTotalRow (Or.inr (by decide)),
    (C8_assembler refToday).2.2.1 [] wMsftRow ⟨[], []⟩ rfl (by decide) (by decide) rfl
      (by decide),
    (C8_assembler refToday).2.2.2.1 [("MSFT", 7)] "MSFT" 2⟩

/-- The row whose strike text `1.2.3` is accepted by the option pattern's
`[0-9.]+` group but rejected by `float`. -/
def badStrikeRow : Row := { emptyRow with symbol := "AAPL Feb 27 '26 $1.2.3 Call", quantity := "1" }

/-- **C6.** The option-symbol parser is *not* total: on a symbol whose
strike text matches `[0-9.]+` but is not a valid number (`"1.2.3"`), the
`float(strike)` conversion sits outside the `try` block and the
`ValueError` escapes, aborting `load_full_portfolio` as well — contradicting
the spec's no-exceptions contract.  A missing source file, by contrast, is
reported as absence of data (`none`), as claimed. -/
theorem C6_parser_raises_on_bad_strike :
    parse_option_symbol refToday "AAPL Feb 27 '26 $1.2.3 Call" = .error () ∧
      load_full_portfolio refToday [badStrikeRow] = .error () ∧
      load_full_portfolio_file refToday none = .ok none ∧
      (∀ rows : List Row, load_full_portfolio_file refToday (some rows) =
        (load_full_portfolio refToday rows).map some) :=
  ⟨rfl, rfl, rfl, fun _ => rfl⟩

/-- The malformed option row of spec Example 5: `Feb 30` is not a valid
calendar date, so the symbol fails option parsing. -/
def feb30Row : Row := { emptyRow with symbol := "AAPL Feb 30 '25 $190 Call", quantity := "1" }

/-- Counterexample to C7 as stated: the invalid-date Call row is excluded
from the option output, but `load_full_portfolio` classifies it as a stock
and *includes* it in the stock output (quantity 1 under the uppercased
symbol). -/
theorem C7_call_row_counterexample :
    load_full_portfolio refToday [feb30Row] =
        .ok ⟨[("AAPL FEB 30 '25 $190 CALL", 1)], []⟩ ∧
      ([("AAPL FEB 30 '25 $190 CALL", (1 : ℤ))].lookup "AAPL FEB 30 '25 $190 CALL" ≠ none) :=
  ⟨rfl, by decide⟩

theorem loadStocksLoop_skipCallPut (r : Row)
    (h : (pyContains (pyStrip r.symbol) "Call" || pyContains (pyStrip r.symbol) "Put") = true) :
    ∀ (s : List (String × ℤ)) (rows : List Row),
      loadStocksLoop s (r :: rows) = loadStocksLoop s rows := by
  intro s rows
  by_cases h0 : pyStrip r.symbol = ""
  · simp only [loadStocksLoop, if_pos h0]
  · simp only [loadStocksLoop, if_neg h0, if_pos h]

/-- **C7 (amended).** A row whose stripped symbol contains the substring
`"Call"` or `"Put"` (case-sensitive) is excluded from the stock output of
the legacy stocks-only loader (`load_portfolio`), wherever it appears in the
file; and the malformed option string `"AAPL Feb 30 '25 $190 Call"` (invalid
calendar date) is excluded from the option output of full-portfolio loading —
but `load_full_portfolio` has no Call/Put substring rule, treats that row as
a stock, and includes it in the stock output when its quantity is
positive. -/
theorem C7_call_exclusion (r : Row)
    (h : (pyContains (pyStrip r.symbol) "Call" || pyContains (pyStrip r.symbol) "Put") = true) :
    (∀ (rows₁ rows₂ : List Row),
      load_portfolio (rows₁ ++ r :: rows₂) = load_portfolio (rows₁ ++ rows₂)) ∧
      load_full_portfolio refToday [feb30Row] =
        .ok ⟨[("AAPL FEB 30 '25 $190 CALL", 1)], []⟩ := by
  constructor
  · intro rows₁ rows₂
    unfold load_portfolio
    rw [loadStocksLoop_append, loadStocksLoop_append, loadStocksLoop_skipCallPut r h]
  · rfl

/-- Witness for C7 (amended) at the Example-5 row. -/
theorem C7_call_exclusion_witness :
    load_portfolio ([] ++ feb30Row :: []) = load_portfolio ([] ++ []) :=
  (C7_call_exclusion feb30Row (by decide)).1 [] []

/-- Counterexample to C9 as stated: the quantity parser does not strip
currency symbols — `parse_int "$5"` falls back to the default 0 instead of
parsing 5. -/
theorem C9_quantity_dollar_counterexample :
    parse_int "$5" = 0 ∧ parse_int "$5" ≠ 5 :=
  ⟨rfl, by decide⟩

theorem parse_float_removeChars_invariant (c : Char) (hc : c ∈ [',', '$', '%'])
    (pre post : String) (d : ℚ) :
    parse_float (pre ++ ⟨[c]⟩ ++ post) d = parse_float (pre ++ post) d := by
  have hc1 : List.filter (fun x => !([',', '$', '%'].contains x)) [c] = [] := by
    fin_cases hc <;> rfl
  have hdata : (pre ++ ⟨[c]⟩ ++ post).data = pre.data ++ [c] ++ post.data := by
    simp [String.data_append]
  have hne : pre ++ ⟨[c]⟩ ++ post ≠ "" := by
    intro hcontra
    have h0 : (pre ++ ⟨[c]⟩ ++ post).data = [] := by rw [hcontra]
    rw [hdata] at h0
    simp at h0
  have hstrip : pyRemoveChars [',', '$', '%'] (pre ++ ⟨[c]⟩ ++ post) =
      pyRemoveChars [',', '$', '%'] (pre ++ post) := by
    unfold pyRemoveChars
    congr 1
    rw [hdata, String.data_append]
    rw [List.filter_append, List.filter_append, List.filter_append, hc1]
    simp
  unfold parse_float
  rw [if_neg hne, hstrip]
  by_cases hpp : pre ++ post = ""
  · have h1 : pyRemoveChars [',', '$', '%'] (pre ++ post) = "" := by rw [hpp]; rfl
    rw [if_pos hpp, h1]
    rfl
  · rw [if_neg hpp]

theorem parse_int_removeComma_invariant (pre post : String) (d : ℤ) :
    parse_int (pre ++ "," ++ post) d = parse_int (pre ++ post) d := by
  have hc1 : List.filter (fun x => !([','].contains x)) [','] = [] := rfl
  have hdata : (pre ++ "," ++ post).data = pre.data ++ [','] ++ post.data := by
    simp [String.data_append]
  have hne : pre ++ "," ++ post ≠ "" := by
    intro hcontra
    have h0 : (pre ++ "," ++ post).data = [] := by rw [hcontra]
    rw [hdata] at h0
    simp at h0
  have hstrip : pyRemoveChars [','] (pre ++ "," ++ post) =
      pyRemoveChars [','] (pre ++ post) := by
    unfold pyRemoveChars
    congr 1
    rw [hdata, String.data_append]
    rw [List.filter_append, List.filter_append, List.filter_append, hc1]
    simp
  unfold parse_int
  rw [if_neg hne, hstrip]
  by_cases hpp : pre ++ post = ""
  · have h1 : pyRemoveChars [','] (pre ++ post) = "" := by rw [hpp]; rfl
    rw [if_pos hpp, h1]
    rfl
  · rw [if_neg hpp]

/-- **C9 (amended).** The amounts parser `parse_float` strips thousands
separators, currency symbols and percent signs anywhere in the cell before
conversion, and substitutes the default 0 on an empty cell or any
conversion failure; the quantity parser `parse_int` strips only commas, so
a `$` or `%` in the quantity cell makes conversion fail and yields the
default 0.  Neither parser propagates an error.  `"1,234"` parses to 1234
and `"$12.50"` to 12.50. -/
theorem C9_numeric_parsing (pre post : String) (c : Char) (hc : c ∈ [',', '$', '%'])
    (d : ℚ) (di : ℤ) :
    (parse_float (pre ++ ⟨[c]⟩ ++ post) d = parse_float (pre ++ post) d) ∧
    (parse_int (pre ++ "," ++ post) di = parse_int (pre ++ post) di) ∧
    (parse_int "1,234" = 1234) ∧
    (parse_float "$12.50" = 25 / 2) ∧
    (parse_float "15%" = 15) ∧
    (parse_float "$1,234.56" = 123456 / 100) ∧
    (parse_float "" = 0) ∧
    (parse_float "abc" = 0) ∧
    (parse_int "" = 0) ∧
    (parse_int "abc" = 0) ∧
    (parse_int "$5" = 0) ∧
    (parse_int "5%" = 0) :=
  ⟨parse_float_removeChars_invariant c hc pre post d,
    parse_int_removeComma_invariant pre post di,
    rfl,
    by rw [show parse_float "$12.50" = mkRat 1250 100 from rfl, Rat.mkRat_eq_div]; norm_num,
    by rw [show parse_float "15%" = mkRat 15 1 from rfl, Rat.mkRat_eq_div]; norm_num,
    by rw [show parse_float "$1,234.56" = mkRat 123456 100 from rfl, Rat.mkRat_eq_div]; norm_num,
    rfl, rfl, rfl, rfl, rfl, rfl⟩

/-- Witness for C9 (amended): stripping a concrete `$` from a concrete
cell. -/
theorem C9_numeric_parsing_witness :
    parse_float ("" ++ ⟨['$']⟩ ++ "12.50") 0 = parse_float ("" ++ "12.50") 0 ∧
      parse_int ("1" ++ "," ++ "234") 0 = parse_int ("1" ++ "234") 0 :=
  ⟨(C9_numeric_parsing "" "12.50" '$' (by decide) 0 0).1,
    (C9_numeric_parsing "1" "234" '$' (by decide) 0 0).2.1⟩

/-- **C10.** An option-classified row whose Quantity cell is empty or
unparsable gets quantity 0, `is_short = false`, `position_type = "long"`,
and is still appended to the option output — zero-quantity option positions
are never dropped. -/
theorem C10_zero_quantity_option (today : YMD) (rows : List Row) (r : Row)
    (res : FullPortfolio) (info : OptionInfo)
    (hres : load_full_portfolio today rows = .ok res)
    (hs : pyStrip r.symbol ≠ "") (hskip : pyUpper (pyStrip r.symbol) ∉ SKIP_SYMBOLS)
    (hparse : parse_option_symbol today (pyStrip r.symbol) = .ok (some info))
    (hq : r.quantity = "" ∨ pyFloat? (pyRemoveChars [','] r.quantity) = none) :
    (mkOptionPosition (pyStrip r.symbol) info r).quantity = 0 ∧
    (mkOptionPosition (pyStrip r.symbol) info r).is_short = false ∧
    (mkOptionPosition (pyStrip r.symbol) info r).position_type = "long" ∧
    load_full_portfolio today (rows ++ [r]) = .ok
      ⟨res.stocks_portfolio,
        res.options_portfolio ++ [mkOptionPosition (pyStrip r.symbol) info r]⟩ := by
  have hq0 : parse_int (if r.quantity = "" then "0" else r.quantity) = 0 := by
    by_cases h0 : r.quantity = ""
    · rw [if_pos h0]
      rfl
    · rw [if_neg h0]
      rcases hq with h | h
      · exact absurd h h0
      · unfold parse_int
        rw [if_neg h0, h]
  refine ⟨hq0, ?_, ?_, ?_⟩
  · show decide (parse_int (if r.quantity = "" then "0" else r.quantity) < 0) = false
    rw [hq0]
    rfl
  · show (if parse_int (if r.quantity = "" then "0" else r.quantity) < 0
        then "short" else "long") = "long"
    rw [hq0]
    rfl
  · unfold load_full_portfolio at hres ⊢
    rw [loadFullLoop_append, hres]
    show loadFullLoop today res.stocks_portfolio res.options_portfolio [r] = .ok
      ⟨res.stocks_portfolio,
        res.options_portfolio ++ [mkOptionPosition (pyStrip r.symbol) info r]⟩
    simp only [loadFullLoop, if_neg hs, if_neg hskip, hparse]

/-- An option row whose Quantity cell is the unparsable text `abc`. -/
def abcQuantityRow : Row := { emptyRow with symbol := "NVDA Feb 27 '26 $195 Call", quantity := "abc" }

/-- Witness for C10 at a concrete option row with Quantity `abc`. -/
theorem C10_zero_quantity_option_witness :
    (mkOptionPosition (pyStrip abcQuantityRow.symbol)
        ⟨"NVDA", ⟨2026, 2, 27⟩, mkRat 195 1, "Call", 149⟩ abcQuantityRow).quantity = 0 ∧
      load_full_portfolio refToday ([] ++ [abcQuantityRow]) = .ok
        ⟨[], [] ++ [mkOptionPosition (pyStrip abcQuantityRow.symbol)
          ⟨"NVDA", ⟨2026, 2, 27⟩, mkRat 195 1, "Call", 149⟩ abcQuantityRow]⟩ :=
  ⟨(C10_zero_quantity_option refToday [] abcQuantityRow ⟨[], []⟩
      ⟨"NVDA", ⟨2026, 2, 27⟩, mkRat 195 1, "Call", 149⟩ rfl (by decide) (by decide) rfl
      (Or.inr rfl)).1,
    (C10_zero_quantity_option refToday [] abcQuantityRow ⟨[], []⟩
      ⟨"NVDA", ⟨2026, 2, 27⟩, mkRat 195 1, "Call", 149⟩ rfl (by decide) (by decide) rfl
      (Or.inr rfl)).2.2.2⟩
